import Mathlib

/-!
Shallow embedding of `src/BOMComparison.py` (a pandas/Streamlit script that
reconciles SAP and PLM bill-of-material rows).

Modelling conventions:
* A pandas cell is a `Value`: a string, an integer quantity, or NaN.
  The script only ever branches on string cells (identifiers, sizes, keys);
  quantities flow through untouched until the UI subtraction, so `Int`
  quantities embed the numeric cells that appear in the claims.
* A row is an association list from column name to cell, mirroring the
  Python dicts the script builds (`sap_row.to_dict()` etc.).
* A DataFrame is a column-name list plus rows tagged with their pandas
  index label.  Index labels matter: `pd.merge` produces a fresh
  RangeIndex and `DataFrame.explode` duplicates the label of the exploded
  row across its fragments, which the script's `matched_plm_indices`
  bookkeeping then observes.
* Python `KeyError`/`TypeError` are `Except.error`.  Where one Python
  expression can raise several KeyErrors (for example building the match
  key from three columns at once), the embedding raises a single error
  for the combined column check.
* The external scorer `thefuzz.fuzz.token_sort_ratio` (together with the
  processor applied by `thefuzz.process.extractOne`) is a parameter
  `scorer : String → String → Nat`; `extractOne` itself — filter the
  choices by `score_cutoff` (inclusive) and take the first maximal one,
  which is what Python's `max` over the generator does — is embedded
  below.  Concrete instantiations in the theorems only ever score
  identical strings (where `token_sort_ratio` returns 100) or use a
  constant score, so they agree with the library on every call made.
-/

namespace BOMComparison

set_option maxRecDepth 100000

/-- A pandas cell: string, integer quantity, or NaN. -/
inductive Value where
  | vstr : String → Value
  | vnum : Int → Value
  | vnan : Value
deriving DecidableEq, Repr, Inhabited

/-- A row as a Python dict / pandas Series: column name to cell. -/
abbrev Row := List (String × Value)

/-- Dict lookup (first occurrence wins, as in a Python dict). -/
def rowGet? : Row → String → Option Value
  | [], _ => none
  | (k', v) :: r, k => if k' == k then some v else rowGet? r k

/-- Lookup with NaN default — pandas fills absent cells of a column with NaN. -/
def rowGetD (r : Row) (k : String) : Value :=
  (rowGet? r k).getD .vnan

/-- Dict assignment: replace the value of an existing key in place,
otherwise append the new key at the end. -/
def rowSet : Row → String → Value → Row
  | [], k, v => [(k, v)]
  | (k', v') :: r, k, v => if k' == k then (k', v) :: r else (k', v') :: rowSet r k v

/-- `Series.add_prefix`: prefix every field name. -/
def prefixRow (p : String) (r : Row) : Row :=
  r.map (fun kv => (p ++ kv.1, kv.2))

/-- Python `{**a, **b}`: entries of `b` override/extend those of `a`. -/
def dictUnion (a b : Row) : Row :=
  b.foldl (fun acc kv => rowSet acc kv.1 kv.2) a

/-- pandas scalar equality as used by `merge`, `groupby` and boolean
filtering: NaN compares unequal to everything, including itself. -/
def pyEq : Value → Value → Bool
  | .vnan, _ => false
  | _, .vnan => false
  | a, b => a == b

/-- Python `str(...)` / `astype(str)` on a cell. -/
def pyStr : Value → String
  | .vstr s => s
  | .vnum n => toString n
  | .vnan => "nan"

/-- The `fillna('').astype(str)` step applied to the merged Size cell. -/
def pySizeStr : Value → String
  | .vnan => ""
  | v => pyStr v

/-- Whitespace characters stripped by Python `str.strip()`. -/
def isPySpace (c : Char) : Bool :=
  c == ' ' || c == '\t' || c == '\n' || c == '\r'

/-- Python `str.strip()`. -/
def trimString (s : String) : String :=
  (((s.toList.dropWhile isPySpace).reverse.dropWhile isPySpace).reverse).asString

/-- Accumulator for `splitComma`. -/
def splitCommaAux : List Char → List Char → List (List Char)
  | [], acc => [acc.reverse]
  | c :: cs, acc =>
    if c == ',' then acc.reverse :: splitCommaAux cs [] else splitCommaAux cs (c :: acc)

/-- Python `str.split(',')`; on the empty string it yields `[""]`. -/
def splitComma (s : String) : List String :=
  (splitCommaAux s.toList []).map List.asString

/-- A DataFrame: the declared columns and the index-labelled rows. -/
structure DF where
  cols : List String
  rows : List (Nat × Row)
deriving DecidableEq, Repr, Inhabited

/-- Build a DataFrame with a fresh RangeIndex, as `pd.read_csv`/`read_excel` do. -/
def mkDF (cols : List String) (rows : List Row) : DF :=
  ⟨cols, rows.enum⟩

/-- `df.rename(columns=...)`: keys absent from the mapping are kept unchanged,
mapping entries whose key is absent from the frame are silently ignored. -/
def renameKey (m : List (String × String)) (k : String) : String :=
  match m.find? (fun p => p.1 == k) with
  | some p => p.2
  | none => k

/-- `df.columns.str.strip()` (lines 50-52 of the source). -/
def DF.stripCols (df : DF) : DF :=
  ⟨df.cols.map trimString, df.rows.map (fun ir => (ir.1, ir.2.map (fun kv => (trimString kv.1, kv.2))))⟩

/-- Column renaming applied to the column list and to every row dict. -/
def DF.rename (df : DF) (m : List (String × String)) : DF :=
  ⟨df.cols.map (renameKey m), df.rows.map (fun ir => (ir.1, ir.2.map (fun kv => (renameKey m kv.1, kv.2))))⟩

/-- SAP rename table (lines 55-61). -/
def sapRenames : List (String × String) :=
  [("Material", "Material_ID"), ("Customer Style", "Style"),
   ("Vendor Reference", "Vendor_Ref"), ("Comp.Qty.", "SAP_Consumption"),
   ("Component Grv", "Size")]

/-- PLM rename table (lines 63-69). -/
def plmRenames : List (String × String) :=
  [("Material", "Material_ID"), ("Customer Style", "Style"),
   ("Vendor Reference", "Vendor_Ref"), ("Qty(Cons.)", "PLM_Consumption"),
   ("Size Split", "Size_Split_ID")]

/-- Size-chart rename table (line 71). -/
def chartRenames : List (String × String) :=
  [("Size Split", "Size_Split_ID"), ("Size List", "Size")]

/-- SAP frame after strip + rename. -/
def sapProcDF (sap : DF) : DF := (DF.stripCols sap).rename sapRenames

/-- PLM frame after strip + rename. -/
def plmProcDF (plm : DF) : DF := (DF.stripCols plm).rename plmRenames

/-- Size-chart frame after strip + rename. -/
def chartProcDF (chart : DF) : DF := (DF.stripCols chart).rename chartRenames

/-- The `(Size_Split_ID, Size)` pairs of the chart, in row order —
the right side of the merge after the column subset on line 75. -/
def chartPairs (chart : DF) : List (Value × Value) :=
  chart.rows.map (fun ir => (rowGetD ir.2 "Size_Split_ID", rowGetD ir.2 "Size"))

/-- Left-merge body: each left row pairs with every matching chart row in
chart order; a left row with no match keeps NaN in the new Size column. -/
def mergeRows (chart : DF) (rows : List Row) : List Row :=
  rows.flatMap (fun r =>
    let ms := (chartPairs chart).filter (fun p => pyEq p.1 (rowGetD r "Size_Split_ID"))
    if ms.isEmpty then [rowSet r "Size" .vnan]
    else ms.map (fun p => rowSet r "Size" p.2))

/-- `pd.merge(plm_df, size_chart_df[['Size_Split_ID','Size']],
on='Size_Split_ID', how='left')` (line 75).  The column subset raises
KeyError if the chart lacks either column; the merge raises KeyError if
the PLM frame lacks the on-column.  The result gets a fresh RangeIndex.
(The PLM frame is assumed not to carry its own raw `Size` column,
otherwise pandas would suffix the duplicate; no claim exercises that.) -/
def mergeSize (plm chart : DF) : Except String DF :=
  if "Size_Split_ID" ∈ chart.cols ∧ "Size" ∈ chart.cols then
    if "Size_Split_ID" ∈ plm.cols then
      .ok ⟨plm.cols ++ ["Size"], (mergeRows chart (plm.rows.map Prod.snd)).enum⟩
    else .error "KeyError: Size_Split_ID"
  else .error "KeyError: size chart columns"

/-- Lines 80-82: `fillna('').astype(str).str.split(',')`, `explode('Size')`,
`str.strip()`.  Exploded fragments share the index label of their source
row — the detail the unmatched-PLM bookkeeping later depends on. -/
def explodeSizes (df : DF) : DF :=
  ⟨df.cols, df.rows.flatMap (fun ir =>
    (splitComma (pySizeStr (rowGetD ir.2 "Size"))).map
      (fun s => (ir.1, rowSet ir.2 "Size" (.vstr (trimString s)))))⟩

/-- Append a column name if not already present. -/
def addColName (cs : List String) (c : String) : List String :=
  if c ∈ cs then cs else cs ++ [c]

/-- Lines 86-88: build the PLM `Match_Key` from Vendor_Ref, Color Name and
Position.  Python raises KeyError at the first missing column; the
embedding raises one error for the combined check. -/
def addPlmKey (df : DF) : Except String DF :=
  if "Vendor_Ref" ∈ df.cols ∧ "Color Name" ∈ df.cols ∧ "Position" ∈ df.cols then
    .ok ⟨addColName df.cols "Match_Key",
      df.rows.map (fun ir => (ir.1, rowSet ir.2 "Match_Key"
        (.vstr (pyStr (rowGetD ir.2 "Vendor_Ref") ++ "_" ++
                pyStr (rowGetD ir.2 "Color Name") ++ "_" ++
                pyStr (rowGetD ir.2 "Position")))))⟩
  else .error "KeyError: PLM Match_Key columns"

/-- Lines 90-92: build the SAP `Match_Key` from Vendor_Ref,
Component Col. Des. and Head Material Group. -/
def addSapKey (df : DF) : Except String DF :=
  if "Vendor_Ref" ∈ df.cols ∧ "Component Col. Des." ∈ df.cols ∧ "Head Material Group" ∈ df.cols then
    .ok ⟨addColName df.cols "Match_Key",
      df.rows.map (fun ir => (ir.1, rowSet ir.2 "Match_Key"
        (.vstr (pyStr (rowGetD ir.2 "Vendor_Ref") ++ "_" ++
                pyStr (rowGetD ir.2 "Component Col. Des.") ++ "_" ++
                pyStr (rowGetD ir.2 "Head Material Group")))))⟩
  else .error "KeyError: SAP Match_Key columns"

/-- `thefuzz.process.extractOne(query, choices, scorer, score_cutoff)`
over an index-labelled choice list: keep choices scoring at least the
cutoff (the library filter is inclusive) and return the first one
attaining the maximal score, as Python's `max` does on ties.
Returns the winning index label and its score. -/
def extractOne (scorer : String → String → Nat) (q : String) (cutoff : Nat) :
    List (Nat × String) → Option (Nat × Nat)
  | [] => none
  | c :: cs =>
    if cutoff ≤ scorer q c.2 then
      match extractOne scorer q cutoff cs with
      | some (j, bs) =>
        if bs ≤ scorer q c.2 then some (c.1, scorer q c.2) else some (j, bs)
      | none => some (c.1, scorer q c.2)
    else extractOne scorer q cutoff cs

/-- `grouped_plm.get_group((sap_row['Style'], sap_row['Material_ID']))`
(line 104): the exploded PLM rows sharing the SAP row's Style and
Material_ID, in frame order.  An empty result models both the KeyError
branch (no group) and an empty group. -/
def sapBucket (plmEx : DF) (sapRow : Row) : List (Nat × Row) :=
  plmEx.rows.filter (fun ir =>
    pyEq (rowGetD ir.2 "Style") (rowGetD sapRow "Style") &&
    pyEq (rowGetD ir.2 "Material_ID") (rowGetD sapRow "Material_ID"))

/-- Line 107: the bucket further filtered to the SAP row's Size. -/
def sapFiltered (plmEx : DF) (sapRow : Row) : List (Nat × Row) :=
  (sapBucket plmEx sapRow).filter (fun ir =>
    pyEq (rowGetD ir.2 "Size") (rowGetD sapRow "Size"))

/-- The `Match_Key` choice series handed to `extractOne` (line 113). -/
def candidatesOf (f : List (Nat × Row)) : List (Nat × String) :=
  f.map (fun ir => (ir.1, pyStr (rowGetD ir.2 "Match_Key")))

/-- `plm_group_filtered.loc[plm_index]` (line 120): the row with the given
label.  Labels are unique within a filtered group for every input
considered here (duplicates would make pandas return a frame instead). -/
def locRow (f : List (Nat × Row)) (i : Nat) : Row :=
  match f.find? (fun ir => ir.1 == i) with
  | some ir => ir.2
  | none => []

/-- Lines 103-128 for one SAP row: look up the bucket, filter by size, run
`extractOne`.  `none` covers the caught-KeyError branch (missing group or
missing Style/Material_ID/Size on the SAP side — the `except KeyError:
pass` on line 130 swallows those lookups too), the empty filtered group,
and a best score below the cutoff.  Note the search runs over the whole
filtered bucket: rows already claimed by earlier SAP rows are *not*
excluded. -/
def matchSapRow (sapCols : List String) (plmEx : DF) (scorer : String → String → Nat)
    (th : Nat) (sapRow : Row) : Option (Nat × Row × Nat) :=
  if "Style" ∈ sapCols ∧ "Material_ID" ∈ sapCols ∧ "Size" ∈ sapCols then
    if (sapFiltered plmEx sapRow).isEmpty then none
    else
      match extractOne scorer (pyStr (rowGetD sapRow "Match_Key")) th
          (candidatesOf (sapFiltered plmEx sapRow)) with
      | some (i, sc) => some (i, locRow (sapFiltered plmEx sapRow) i, sc)
      | none => none
  else none

/-- Line 123-125: `{**sap_row, **plm_row.add_prefix('PLM_')}` plus the
score and the `Matched` status. -/
def combinedRow (sapRow plmRow : Row) (sc : Nat) : Row :=
  rowSet (rowSet (dictUnion sapRow (prefixRow "PLM_" plmRow))
    "Similarity_Score" (.vnum (Int.ofNat sc))) "Status" (.vstr "Matched")

/-- One iteration of the SAP loop: the emitted result row and the PLM index
label added to `matched_plm_indices` (if any). -/
def sapStep (sapCols : List String) (plmEx : DF) (scorer : String → String → Nat)
    (th : Nat) (sapRow : Row) : Row × Option Nat :=
  match matchSapRow sapCols plmEx scorer th sapRow with
  | some isc => (combinedRow sapRow isc.2.1 isc.2.2, some isc.1)
  | none => (rowSet sapRow "Status" (.vstr "Unmatched SAP"), none)

/-- The SAP loop (lines 101-137): the emitted result rows and the claimed
PLM index labels, both in loop order.  Each iteration consults only the
exploded frame, never the labels claimed so far. -/
def processSap (sapCols : List String) (plmEx : DF) (scorer : String → String → Nat)
    (th : Nat) : List Row → List Row × List Nat
  | [] => ([], [])
  | r :: rs =>
    match sapStep sapCols plmEx scorer th r, processSap sapCols plmEx scorer th rs with
    | (res, some i), (others, claimed) => (res :: others, i :: claimed)
    | (res, none), (others, claimed) => (res :: others, claimed)

/-- Lines 139-144: the exploded PLM rows whose index label was never
claimed, prefixed and tagged `Unmatched PLM`.  Because exploded fragments
share labels, claiming one fragment also removes its siblings from this
list. -/
def unmatchedPlmRows (plmEx : DF) (claimed : List Nat) : List Row :=
  (plmEx.rows.filter (fun ir => !(claimed.contains ir.1))).map
    (fun ir => rowSet (prefixRow "PLM_" ir.2) "Status" (.vstr "Unmatched PLM"))

/-- `pd.DataFrame(results)`: the columns are the union of the dict keys in
first-seen order. -/
def unionKeys (rows : List Row) : List String :=
  rows.foldl (fun acc r => r.foldl (fun a kv => addColName a kv.1) acc) []

/-- All result rows of one run: the SAP loop output followed by the
unmatched PLM rows. -/
def allRowsOf (sapK plmEx : DF) (scorer : String → String → Nat) (th : Nat) : List Row :=
  (processSap sapK.cols plmEx scorer th (sapK.rows.map Prod.snd)).1 ++
    unmatchedPlmRows plmEx (processSap sapK.cols plmEx scorer th (sapK.rows.map Prod.snd)).2

/-- The observable state of one run: the processed (keyed) SAP frame, the
exploded PLM frame, the claimed PLM index labels (the code's
`matched_plm_indices`, kept in claim order), and the report frame
returned by `run_matching_logic`. -/
structure RunOut where
  sapProc : DF
  plmEx : DF
  claimed : List Nat
  report : DF
deriving DecidableEq, Repr, Inhabited

/-- Assemble the run output from the keyed frames. -/
def mkRunOut (sapK plmEx : DF) (scorer : String → String → Nat) (th : Nat) : RunOut :=
  ⟨sapK, plmEx, (processSap sapK.cols plmEx scorer th (sapK.rows.map Prod.snd)).2,
    ⟨unionKeys (allRowsOf sapK plmEx scorer th), (allRowsOf sapK plmEx scorer th).enum⟩⟩

/-- `run_matching_logic` (lines 44-146), with the full run state exposed.
Stages in source order: strip + rename all three frames, merge the chart
onto PLM, explode sizes, build the PLM match key, build the SAP match
key, group the exploded frame (KeyError if Style/Material_ID are absent),
then the matching loop and the unmatched-PLM append. -/
def run_matching_full (sap plm chart : DF) (scorer : String → String → Nat)
    (th : Nat) : Except String RunOut :=
  match mergeSize (plmProcDF plm) (chartProcDF chart) with
  | .error e => .error e
  | .ok merged =>
    match addPlmKey (explodeSizes merged) with
    | .error e => .error e
    | .ok plmEx =>
      match addSapKey (sapProcDF sap) with
      | .error e => .error e
      | .ok sapK =>
        if "Style" ∈ plmEx.cols ∧ "Material_ID" ∈ plmEx.cols then
          .ok (mkRunOut sapK plmEx scorer th)
        else .error "KeyError: groupby columns"

/-- `run_matching_logic`: the report frame alone. -/
def run_matching_logic (sap plm chart : DF) (scorer : String → String → Nat)
    (th : Nat) : Except String DF :=
  (run_matching_full sap plm chart scorer th).map RunOut.report

/-- Convenience projection of a successful run (used to state closed
instances of the theorems). -/
def runOutD (sap plm chart : DF) (scorer : String → String → Nat) (th : Nat) : RunOut :=
  match run_matching_full sap plm chart scorer th with
  | .ok o => o
  | .error _ => default

/-- Line 197-199: `final_report_df[final_report_df['Status'] == s]`. -/
def statusFilter (df : DF) (s : String) : DF :=
  ⟨df.cols, df.rows.filter (fun ir => pyEq (rowGetD ir.2 "Status") (.vstr s))⟩

/-- Number of report rows with the given status. -/
def countStatus (df : DF) (s : String) : Nat :=
  (df.rows.filter (fun ir => pyEq (rowGetD ir.2 "Status") (.vstr s))).length

/-- pandas element subtraction: numbers subtract, NaN propagates, a string
operand raises TypeError. -/
def valueSub : Value → Value → Except String Value
  | .vnum a, .vnum b => .ok (.vnum (a - b))
  | .vnan, .vnum _ => .ok .vnan
  | .vnum _, .vnan => .ok .vnan
  | .vnan, .vnan => .ok .vnan
  | _, _ => .error "TypeError: unsupported operand"

/-- Per-row subtraction for the `Consumption_Diff` column (line 211). -/
def subRows (rows : List (Nat × Row)) : Except String (List (Nat × Row)) :=
  rows.mapM (fun ir =>
    (valueSub (rowGetD ir.2 "SAP_Consumption") (rowGetD ir.2 "PLM_Consumption")).map
      (fun d => (ir.1, rowSet ir.2 "Consumption_Diff" d)))

/-- Lines 210-211 of the UI: when any matched record exists, compute
`matched_df['SAP_Consumption'] - matched_df['PLM_Consumption']`.  Both
column lookups raise KeyError when the column is absent from the report
(the SAP one is looked up first). -/
def addConsumptionDiff (matched : DF) : Except String DF :=
  if matched.rows.isEmpty then .ok matched
  else if "SAP_Consumption" ∈ matched.cols then
    if "PLM_Consumption" ∈ matched.cols then
      (subRows matched.rows).map (fun rs => ⟨addColName matched.cols "Consumption_Diff", rs⟩)
    else .error "KeyError: PLM_Consumption"
  else .error "KeyError: SAP_Consumption"

/-- The UI's matched view: filter the report to `Matched` and add the diff
column (lines 197 and 210-211).  Any error is caught by the page-level
handler on line 266, aborting the whole rendering. -/
def uiMatched (report : DF) : Except String DF :=
  addConsumptionDiff (statusFilter report "Matched")

/-- Maximal score a query attains over a candidate list (0 when empty). -/
def bestScore (scorer : String → String → Nat) (q : String)
    (cands : List (Nat × String)) : Nat :=
  cands.foldl (fun m c => max m (scorer q c.2)) 0

/-- Modelled from the spec: the absolute quantity difference |A − B| the
spec's ReportAssembler sorts by.  The code never produces a diff column,
so this reads the two quantity cells a matched record actually carries
(`SAP_Consumption` and the double-prefixed `PLM_PLM_Consumption`);
`none` stands for the spec's null diff. -/
def specAbsDiff (r : Row) : Option Int :=
  match rowGetD r "SAP_Consumption", rowGetD r "PLM_PLM_Consumption" with
  | .vnum a, .vnum b => some |a - b|
  | _, _ => none

/-- Modelled from the spec: the |diff| sequence of the matched report
entries, in report order. -/
def specMatchedAbsDiffs (report : DF) : List (Option Int) :=
  (statusFilter report "Matched").rows.map (fun ir => specAbsDiff ir.2)

/-- Modelled from the spec: adjacent-pair order check for
"|diff| descending, null diffs last". -/
def specDescPair : Option Int → Option Int → Bool
  | some x, some y => decide (y ≤ x)
  | some _, none => true
  | none, some _ => false
  | none, none => true

/-- Modelled from the spec: the matched entries are stable-sorted by |diff|
descending with null diffs last. -/
def specSortedDesc : List (Option Int) → Bool
  | [] => true
  | [_] => true
  | a :: b :: t => specDescPair a b && specSortedDesc (b :: t)

/-- Stand-in for `token_sort_ratio` on the concrete inputs below: identical
strings score 100 (as the library guarantees), different ones 0.  Every
scorer call made by those inputs compares identical strings, so the
stand-in agrees with the library on every call actually performed. -/
def eqScorer (a b : String) : Nat :=
  if a == b then 100 else 0

/-! Concrete input frames.  Column layouts follow the spreadsheets the
script expects; each claim's scenario fills in the identifying fields so
that the single relevant bucket and key comparison is exercised. -/

/-- Raw SAP columns. -/
def sapColsRaw : List String :=
  ["Material", "Customer Style", "Vendor Reference", "Comp.Qty.",
   "Component Grv", "Component Col. Des.", "Head Material Group"]

/-- Raw PLM columns. -/
def plmColsRaw : List String :=
  ["Material", "Customer Style", "Vendor Reference", "Qty(Cons.)",
   "Size Split", "Color Name", "Position"]

/-- Raw size-chart columns. -/
def chartColsRaw : List String := ["Size Split", "Size List"]

/-- A SAP input row with the given material, quantity and size; the key
fields shared with the PLM rows below make the match keys identical. -/
def mkSapRow (mat : String) (qty : Value) (size : String) : Row :=
  [("Material", .vstr mat), ("Customer Style", .vstr "ST1"),
   ("Vendor Reference", .vstr "V1"), ("Comp.Qty.", qty),
   ("Component Grv", .vstr size), ("Component Col. Des.", .vstr "RED"),
   ("Head Material Group", .vstr "P1")]

/-- A PLM input row with the given material, quantity and size-split id. -/
def mkPlmRow (mat : String) (qty : Value) (splitId : String) : Row :=
  [("Material", .vstr mat), ("Customer Style", .vstr "ST1"),
   ("Vendor Reference", .vstr "V1"), ("Qty(Cons.)", qty),
   ("Size Split", .vstr splitId), ("Color Name", .vstr "RED"),
   ("Position", .vstr "P1")]

/-- A size-chart row. -/
def mkChartRow (splitId sizes : String) : Row :=
  [("Size Split", .vstr splitId), ("Size List", .vstr sizes)]

/-- Size chart mapping SP1 to the single size S. -/
def chartS : DF := mkDF chartColsRaw [mkChartRow "SP1" "S"]

/-- Two identical SAP rows competing for one PLM row. -/
def c1sap : DF := mkDF sapColsRaw [mkSapRow "M1" (.vnum 5) "S", mkSapRow "M1" (.vnum 5) "S"]

/-- A single PLM row for the double-claim scenario. -/
def c1plm : DF := mkDF plmColsRaw [mkPlmRow "M1" (.vnum 4) "SP1"]

/-- One SAP row matching the size-S fragment of a two-size PLM row. -/
def c2sap : DF := mkDF sapColsRaw [mkSapRow "M1" (.vnum 5) "S"]

/-- One PLM row whose size split expands to S and M. -/
def c2plm : DF := mkDF plmColsRaw [mkPlmRow "M1" (.vnum 4) "SP1"]

/-- Size chart mapping SP1 to the sizes S and M. -/
def chartSM : DF := mkDF chartColsRaw [mkChartRow "SP1" "S,M"]

/-- A SAP frame missing the required quantity column `Comp.Qty.`. -/
def c3sap : DF :=
  mkDF ["Material", "Customer Style", "Vendor Reference",
        "Component Grv", "Component Col. Des.", "Head Material Group"]
    [[("Material", .vstr "M1"), ("Customer Style", .vstr "ST1"),
      ("Vendor Reference", .vstr "V1"), ("Component Grv", .vstr "S"),
      ("Component Col. Des.", .vstr "RED"), ("Head Material Group", .vstr "P1")]]

/-- A PLM frame missing the required column `Color Name`. -/
def c3plmNoColor : DF :=
  mkDF ["Material", "Customer Style", "Vendor Reference", "Qty(Cons.)",
        "Size Split", "Position"]
    [[("Material", .vstr "M1"), ("Customer Style", .vstr "ST1"),
      ("Vendor Reference", .vstr "V1"), ("Qty(Cons.)", .vnum 4),
      ("Size Split", .vstr "SP1"), ("Position", .vstr "P1")]]

/-- The identical-record pair of the exact-match scenario (A=M1 qty 5,
B=M1 qty 5). -/
def c4sap : DF := mkDF sapColsRaw [mkSapRow "M1" (.vnum 5) "S"]

/-- PLM side of the exact-match scenario. -/
def c4plm : DF := mkDF plmColsRaw [mkPlmRow "M1" (.vnum 5) "SP1"]

/-- SAP frame with a symbolic quantity. -/
def c7sap (a : Int) : DF := mkDF sapColsRaw [mkSapRow "M1" (.vnum a) "S"]

/-- PLM frame with a symbolic quantity. -/
def c7plm (b : Int) : DF := mkDF plmColsRaw [mkPlmRow "M1" (.vnum b) "SP1"]

/-- SAP frame with a non-numeric quantity. -/
def c8sap : DF := mkDF sapColsRaw [mkSapRow "M1" (.vstr "N/A") "S"]

/-- PLM frame with a non-numeric quantity. -/
def c8plm : DF := mkDF plmColsRaw [mkPlmRow "M1" (.vstr "n.a.") "SP1"]

/-- A PLM row whose raw size field is the multi-size string S,M but whose
split id has no chart entry. -/
def c9plm : DF := mkDF plmColsRaw [mkPlmRow "M1" (.vnum 4) "S,M"]

/-- An empty size chart (columns present, no entries). -/
def chartEmpty : DF := mkDF chartColsRaw []

/-- Two SAP rows whose would-be |diff| values are 1 and then 5. -/
def c10sap : DF := mkDF sapColsRaw [mkSapRow "M1" (.vnum 5) "S", mkSapRow "M2" (.vnum 10) "S"]

/-- The two matching PLM rows for the ordering scenario. -/
def c10plm : DF := mkDF plmColsRaw [mkPlmRow "M1" (.vnum 4) "SP1", mkPlmRow "M2" (.vnum 5) "SP1"]

/-- Columns of a bucket-level frame used to exercise the matcher directly. -/
def sapCols5 : List String := ["Style", "Material_ID", "Size", "Match_Key"]

/-- A one-candidate exploded frame. -/
def plmEx5 : DF :=
  ⟨sapCols5, [(0, [("Style", .vstr "ST"), ("Material_ID", .vstr "M"),
                   ("Size", .vstr "S"), ("Match_Key", .vstr "K1")])]⟩

/-- A SAP row landing in the bucket of `plmEx5`. -/
def sapRow5 : Row :=
  [("Style", .vstr "ST"), ("Material_ID", .vstr "M"),
   ("Size", .vstr "S"), ("Match_Key", .vstr "KA")]

/-- A scorer that always returns 85 (between thresholds 70 and 95). -/
def scorer85 : String → String → Nat := fun _ _ => 85

/-- A two-candidate exploded frame whose candidates tie. -/
def plmEx6 : DF :=
  ⟨sapCols5, [(0, [("Style", .vstr "ST"), ("Material_ID", .vstr "M"),
                   ("Size", .vstr "S"), ("Match_Key", .vstr "KX")]),
              (1, [("Style", .vstr "ST"), ("Material_ID", .vstr "M"),
                   ("Size", .vstr "S"), ("Match_Key", .vstr "KY")])]⟩

/-- A scorer under which both candidates of `plmEx6` score 88. -/
def scorer88 : String → String → Nat := fun _ _ => 88

/-- The run output on the quantity-symmetric template inputs. -/
def runOut7 (a b : Int) : RunOut := runOutD (c7sap a) (c7plm b) chartS eqScorer 70

/-! Basic lemmas about the embedding, shared by the claim theorems. -/

/-- Equality of embedded Python results is decidable. -/
instance {α : Type} [DecidableEq α] : DecidableEq (Except String α) := fun a b =>
  match a, b with
  | .ok x, .ok y =>
    if h : x = y then isTrue (by rw [h]) else isFalse (fun hh => h (Except.ok.inj hh))
  | .error x, .error y =>
    if h : x = y then isTrue (by rw [h]) else isFalse (fun hh => h (Except.error.inj hh))
  | .ok _, .error _ => isFalse (fun hh => Except.noConfusion hh)
  | .error _, .ok _ => isFalse (fun hh => Except.noConfusion hh)

theorem rowGet?_set_self (r : Row) (k : String) (v : Value) :
    rowGet? (rowSet r k v) k = some v := by
  induction r with
  | nil => simp [rowSet, rowGet?]
  | cons kv r ih =>
    obtain ⟨k', v'⟩ := kv
    by_cases h : k' == k
    · simp [rowSet, rowGet?, h]
    · simp [rowSet, rowGet?, h, ih]

theorem rowGetD_set_self (r : Row) (k : String) (v : Value) :
    rowGetD (rowSet r k v) k = v := by
  simp [rowGetD, rowGet?_set_self]

/-- `extractOne` returns nothing exactly when every candidate scores below
the cutoff — the cutoff comparison is inclusive. -/
theorem extractOne_eq_none_iff (s : String → String → Nat) (q : String) (th : Nat) :
    ∀ cs : List (Nat × String), extractOne s q th cs = none ↔ ∀ c ∈ cs, s q c.2 < th := by
  intro cs
  induction cs with
  | nil => simp [extractOne]
  | cons c cs ih =>
    simp only [extractOne]
    by_cases hq : th ≤ s q c.2
    · rw [if_pos hq]
      constructor
      · intro h
        exfalso
        cases hx : extractOne s q th cs with
        | none => simp only [hx] at h; simp at h
        | some jbs =>
          obtain ⟨j, bs⟩ := jbs
          simp only [hx] at h
          by_cases hb : bs ≤ s q c.2
          · rw [if_pos hb] at h; simp at h
          · rw [if_neg hb] at h; simp at h
      · intro h
        exact absurd hq (not_le.mpr (h c (List.mem_cons_self c cs)))
    · rw [if_neg hq, ih]
      constructor
      · intro h c' hc'
        rcases List.mem_cons.mp hc' with h1 | h1
        · exact h1 ▸ Nat.lt_of_not_le hq
        · exact h c' h1
      · intro h c' hc'
        exact h c' (List.mem_cons_of_mem c hc')

/-- Full characterisation of a successful `extractOne`: the winning score
clears the cutoff, dominates every other qualifying candidate, and the
winner is the *first* candidate in iteration order reaching that score. -/
theorem extractOne_spec (s : String → String → Nat) (q : String) (th : Nat) :
    ∀ (cs : List (Nat × String)) (i sc : Nat), extractOne s q th cs = some (i, sc) →
      th ≤ sc ∧ (∀ c ∈ cs, th ≤ s q c.2 → s q c.2 ≤ sc) ∧
      ∃ c, cs.find? (fun c => decide (sc ≤ s q c.2)) = some c ∧ c.1 = i ∧ s q c.2 = sc := by
  intro cs
  induction cs with
  | nil => intro i sc h; simp [extractOne] at h
  | cons c cs ih =>
    intro i sc h
    simp only [extractOne] at h
    by_cases hq : th ≤ s q c.2
    · rw [if_pos hq] at h
      cases hx : extractOne s q th cs with
      | none =>
        simp only [hx] at h
        obtain ⟨hi1, hi2⟩ : c.1 = i ∧ s q c.2 = sc := by simpa using h
        refine ⟨hi2 ▸ hq, ?_, ?_⟩
        · intro c' hc' hth
          rcases List.mem_cons.mp hc' with h1 | h1
          · exact le_of_eq (h1 ▸ hi2)
          · exact absurd hth (not_le.mpr ((extractOne_eq_none_iff s q th cs).mp hx c' h1))
        · refine ⟨c, ?_, hi1, hi2⟩
          exact List.find?_cons_of_pos _ (by simp [hi2])
      | some jbs =>
        obtain ⟨j, bs⟩ := jbs
        simp only [hx] at h
        obtain ⟨ih1, ih2, c', hf', hc1', hc2'⟩ := ih j bs hx
        by_cases hb : bs ≤ s q c.2
        · rw [if_pos hb] at h
          obtain ⟨hi1, hi2⟩ : c.1 = i ∧ s q c.2 = sc := by simpa using h
          refine ⟨hi2 ▸ hq, ?_, ?_⟩
          · intro c'' hc'' hth
            rcases List.mem_cons.mp hc'' with h1 | h1
            · exact le_of_eq (h1 ▸ hi2)
            · exact hi2 ▸ le_trans (ih2 c'' h1 hth) hb
          · refine ⟨c, ?_, hi1, hi2⟩
            exact List.find?_cons_of_pos _ (by simp [hi2])
        · rw [if_neg hb] at h
          obtain ⟨hi1, hi2⟩ : j = i ∧ bs = sc := by simpa using h
          refine ⟨hi2 ▸ ih1, ?_, ?_⟩
          · intro c'' hc'' hth
            rcases List.mem_cons.mp hc'' with h1 | h1
            · exact h1 ▸ (hi2 ▸ (Nat.lt_of_not_le hb).le)
            · exact hi2 ▸ ih2 c'' h1 hth
          · refine ⟨c', ?_, hi1 ▸ hc1', hi2 ▸ hc2'⟩
            rw [List.find?_cons_of_neg _ (by simp [← hi2]; exact Nat.lt_of_not_le hb)]
            exact hi2 ▸ hf'
    · rw [if_neg hq] at h
      obtain ⟨ih1, ih2, c', hf', hc1', hc2'⟩ := ih i sc h
      refine ⟨ih1, ?_, ?_⟩
      · intro c'' hc'' hth
        rcases List.mem_cons.mp hc'' with h1 | h1
        · exact absurd (h1 ▸ hth) hq
        · exact ih2 c'' h1 hth
      · refine ⟨c', ?_, hc1', hc2'⟩
        rw [List.find?_cons_of_neg _ (by simp; exact lt_of_lt_of_le (Nat.lt_of_not_le hq) ih1)]
        exact hf'

/-- The initial accumulator is a lower bound of the running maximum. -/
theorem foldl_max_init_le {α : Type} (f : α → Nat) :
    ∀ (l : List α) (a : Nat), a ≤ l.foldl (fun m x => max m (f x)) a := by
  intro l
  induction l with
  | nil => simp
  | cons x xs ih =>
    intro a
    simp only [List.foldl_cons]
    exact le_trans (le_max_left a (f x)) (ih (max a (f x)))

/-- Every element's score is a lower bound of the running maximum. -/
theorem foldl_max_le_elem {α : Type} (f : α → Nat) :
    ∀ (l : List α) (a : Nat) (c : α), c ∈ l → f c ≤ l.foldl (fun m x => max m (f x)) a := by
  intro l
  induction l with
  | nil => simp
  | cons x xs ih =>
    intro a c hc
    simp only [List.foldl_cons]
    rcases List.mem_cons.mp hc with h1 | h1
    · subst h1
      exact le_trans (le_max_right a (f c)) (foldl_max_init_le f xs (max a (f c)))
    · exact ih (max a (f x)) c h1

/-- The running maximum stays below a strict upper bound of the inputs. -/
theorem foldl_max_lt {α : Type} (f : α → Nat) (th : Nat) :
    ∀ (l : List α) (a : Nat), a < th → (∀ c ∈ l, f c < th) →
      l.foldl (fun m x => max m (f x)) a < th := by
  intro l
  induction l with
  | nil => intro a ha _; simpa using ha
  | cons x xs ih =>
    intro a ha h
    simp only [List.foldl_cons]
    exact ih (max a (f x)) (max_lt ha (h x (List.mem_cons_self x xs)))
      (fun c hc => h c (List.mem_cons_of_mem x hc))

/-- A candidate's score is at most the best score of its list. -/
theorem le_bestScore_of_mem (scorer : String → String → Nat) (q : String)
    (cands : List (Nat × String)) (c : Nat × String) (h : c ∈ cands) :
    scorer q c.2 ≤ bestScore scorer q cands := by
  unfold bestScore
  exact foldl_max_le_elem (fun c => scorer q c.2) cands 0 c h

/-- If every candidate scores below a positive bound, so does the best score. -/
theorem bestScore_lt (scorer : String → String → Nat) (q : String)
    (cands : List (Nat × String)) (th : Nat) (h0 : 0 < th)
    (h : ∀ c ∈ cands, scorer q c.2 < th) : bestScore scorer q cands < th := by
  unfold bestScore
  exact foldl_max_lt (fun c => scorer q c.2) th cands 0 h0 h

/-- The SAP loop unrolled: the result list is a pointwise map of
`sapStep` over the SAP rows (each row is matched against the full exploded
frame, independent of the claims recorded so far), and the claimed list
collects the matched labels in that same order. -/
theorem processSap_eq (sapCols : List String) (plmEx : DF)
    (scorer : String → String → Nat) (th : Nat) :
    ∀ rows : List Row, processSap sapCols plmEx scorer th rows =
      (rows.map (fun r => (sapStep sapCols plmEx scorer th r).1),
       rows.filterMap (fun r => (sapStep sapCols plmEx scorer th r).2)) := by
  intro rows
  induction rows with
  | nil => simp [processSap]
  | cons r rs ih =>
    simp only [processSap, ih, List.map_cons, List.filterMap_cons]
    cases hs : sapStep sapCols plmEx scorer th r with
    | mk res oi => cases oi <;> simp [hs]

/-- Filtering on the row part of an index-labelled list preserves length. -/
theorem filter_enumFrom_length {α : Type} (p : α → Bool) :
    ∀ (l : List α) (n : Nat),
      ((List.enumFrom n l).filter (fun x => p x.2)).length = (l.filter p).length := by
  intro l
  induction l with
  | nil => intro n; rfl
  | cons a l ih =>
    intro n
    simp only [List.enumFrom, List.filter_cons]
    cases hp : p a <;> simp [hp, ih]

/-- `countStatus`-style filters see through the RangeIndex labelling. -/
theorem filter_enum_length {α : Type} (p : α → Bool) (l : List α) :
    ((l.enum).filter (fun x => p x.2)).length = (l.filter p).length := by
  simpa [List.enum] using filter_enumFrom_length p l 0

/-- Dropping the index labels of a filtered labelled list gives the filter
of the unlabelled list. -/
theorem filter_enumFrom_map_snd {α : Type} (p : α → Bool) :
    ∀ (l : List α) (n : Nat),
      ((List.enumFrom n l).filter (fun x => p x.2)).map Prod.snd = l.filter p := by
  intro l
  induction l with
  | nil => intro n; rfl
  | cons a l ih =>
    intro n
    simp only [List.enumFrom, List.filter_cons]
    cases hp : p a <;> simp [hp, ih]

/-- RangeIndex variant of `filter_enumFrom_map_snd`. -/
theorem filter_enum_map_snd {α : Type} (p : α → Bool) (l : List α) :
    ((l.enum).filter (fun x => p x.2)).map Prod.snd = l.filter p := by
  simpa [List.enum] using filter_enumFrom_map_snd p l 0

/-- Dropping the labels of a RangeIndex-labelled list recovers the list. -/
theorem enumFrom_map_snd {α : Type} :
    ∀ (l : List α) (n : Nat), (List.enumFrom n l).map Prod.snd = l := by
  intro l
  induction l with
  | nil => intro n; rfl
  | cons a l ih => intro n; simp [List.enumFrom, ih]

/-- `enum` variant of `enumFrom_map_snd`. -/
theorem enum_map_snd_eq {α : Type} (l : List α) : (l.enum).map Prod.snd = l := by
  simp [List.enum, enumFrom_map_snd]

/-- Two pointwise exclusive and exhaustive filters split the length. -/
theorem filter_length_pair {α : Type} (p q : α → Bool) :
    ∀ l : List α, (∀ x ∈ l, (p x = true ∧ q x = false) ∨ (p x = false ∧ q x = true)) →
      (l.filter p).length + (l.filter q).length = l.length := by
  intro l
  induction l with
  | nil => intro _; rfl
  | cons a l ih =>
    intro h
    have ih' := ih (fun x hx => h x (List.mem_cons_of_mem a hx))
    rcases h a (List.mem_cons_self a l) with ⟨h1, h2⟩ | ⟨h1, h2⟩ <;>
      simp [List.filter_cons, h1, h2] <;> omega

/-- A filter over elements uniformly failing the predicate is empty. -/
theorem filter_eq_nil_of_false {α : Type} (p : α → Bool) :
    ∀ l : List α, (∀ x ∈ l, p x = false) → l.filter p = [] := by
  intro l
  induction l with
  | nil => intro _; rfl
  | cons a l ih =>
    intro h
    simp [List.filter_cons, h a (List.mem_cons_self a l),
      ih (fun x hx => h x (List.mem_cons_of_mem a hx))]

/-- A filter over elements uniformly passing the predicate is the identity. -/
theorem filter_eq_self_of_true {α : Type} (p : α → Bool) :
    ∀ l : List α, (∀ x ∈ l, p x = true) → l.filter p = l := by
  intro l
  induction l with
  | nil => intro _; rfl
  | cons a l ih =>
    intro h
    simp [List.filter_cons, h a (List.mem_cons_self a l),
      ih (fun x hx => h x (List.mem_cons_of_mem a hx))]

/-- Every loop result row carries status `Matched` or `Unmatched SAP`. -/
theorem sapStep_status (sapCols : List String) (plmEx : DF)
    (scorer : String → String → Nat) (th : Nat) (r : Row) :
    rowGetD (sapStep sapCols plmEx scorer th r).1 "Status" = .vstr "Matched" ∨
    rowGetD (sapStep sapCols plmEx scorer th r).1 "Status" = .vstr "Unmatched SAP" := by
  unfold sapStep
  cases matchSapRow sapCols plmEx scorer th r with
  | some isc => exact Or.inl (by simp [combinedRow, rowGetD_set_self])
  | none => exact Or.inr (by simp [rowGetD_set_self])

/-- Every appended unmatched-PLM row carries status `Unmatched PLM`. -/
theorem unmatchedPlmRows_status (plmEx : DF) (claimed : List Nat) :
    ∀ r ∈ unmatchedPlmRows plmEx claimed, rowGetD r "Status" = .vstr "Unmatched PLM" := by
  intro r hr
  obtain ⟨ir, _, rfl⟩ := List.mem_map.mp hr
  exact rowGetD_set_self _ _ _

/-- Inversion for a successful run: the output is assembled by `mkRunOut`
from the keyed SAP frame and the exploded PLM frame. -/
theorem run_matching_full_ok (sap plm chart : DF) (scorer : String → String → Nat)
    (th : Nat) (out : RunOut) (h : run_matching_full sap plm chart scorer th = .ok out) :
    ∃ sapK plmEx : DF, out = mkRunOut sapK plmEx scorer th := by
  unfold run_matching_full at h
  split at h
  · exact absurd h (by simp)
  · split at h
    · exact absurd h (by simp)
    · split at h
      · exact absurd h (by simp)
      · split at h
        · exact ⟨_, _, (by injection h with h; exact h.symm)⟩
        · exact absurd h (by simp)

/-- Status filters see through the report's RangeIndex (length form). -/
theorem status_filter_enum_length (l : List Row) (s : String) :
    ((List.enum l).filter (fun ir => pyEq (rowGetD ir.2 "Status") (.vstr s))).length =
      (l.filter (fun r => pyEq (rowGetD r "Status") (.vstr s))).length :=
  filter_enum_length (fun r => pyEq (rowGetD r "Status") (.vstr s)) l

/-- Status filters see through the report's RangeIndex (row form). -/
theorem status_filter_enum_map_snd (l : List Row) (s : String) :
    (((List.enum l).filter (fun ir => pyEq (rowGetD ir.2 "Status") (.vstr s))).map Prod.snd) =
      l.filter (fun r => pyEq (rowGetD r "Status") (.vstr s)) :=
  filter_enum_map_snd (fun r => pyEq (rowGetD r "Status") (.vstr s)) l

/-- The status counts of a run split over the loop results and the
unmatched-PLM section. -/
theorem countStatus_mkRunOut (sapK plmEx : DF) (scorer : String → String → Nat)
    (th : Nat) (s : String) :
    countStatus (mkRunOut sapK plmEx scorer th).report s =
      (((sapK.rows.map Prod.snd).map (fun r => (sapStep sapK.cols plmEx scorer th r).1)).filter
          (fun r => pyEq (rowGetD r "Status") (.vstr s))).length +
        ((unmatchedPlmRows plmEx (mkRunOut sapK plmEx scorer th).claimed).filter
          (fun r => pyEq (rowGetD r "Status") (.vstr s))).length := by
  unfold countStatus
  show ((List.enum (allRowsOf sapK plmEx scorer th)).filter
      (fun ir => pyEq (rowGetD ir.2 "Status") (.vstr s))).length = _
  rw [status_filter_enum_length]
  unfold allRowsOf
  rw [List.filter_append, List.length_append]
  rw [processSap_eq]
  simp [mkRunOut, processSap_eq]

/-! ## Claim theorems -/

/-- C1 counterexample: with two identical SAP rows and a single exploded
PLM row, the run claims PLM index label 0 twice — similarity is computed
against the whole bucket, not only still-unclaimed rows, so both SAP rows
match the same B row and the report holds two `Matched` results over the
one expanded B record (and no `Unmatched PLM` row).  The claim that no
B-side row appears in more than one MatchResult is therefore false. -/
theorem C1_counterexample :
    (runOutD c1sap c1plm chartS eqScorer 70).claimed = [0, 0] ∧
    ¬ (runOutD c1sap c1plm chartS eqScorer 70).claimed.Nodup ∧
    countStatus (runOutD c1sap c1plm chartS eqScorer 70).report "Matched" = 2 ∧
    countStatus (runOutD c1sap c1plm chartS eqScorer 70).report "Unmatched PLM" = 0 ∧
    (runOutD c1sap c1plm chartS eqScorer 70).plmEx.rows.length = 1 ∧
    run_matching_full c1sap c1plm chartS eqScorer 70 =
      .ok (runOutD c1sap c1plm chartS eqScorer 70) := by
  refine ⟨by decide, by decide, by decide, by decide, by decide, by decide⟩

/-- C1 (amended): the matcher scores every A row against its full
(Style, Material_ID, Size) bucket — the claimed-label set is consulted
only when the `Unmatched PLM` section is assembled.  Hence the report is
exactly the per-A-row results (computed independently of earlier claims,
so one B row may be claimed several times) followed by the unmatched-PLM
rows, from which every claimed label is excluded: a claimed B row never
additionally appears as `Unmatched PLM`. -/
theorem C1_amended (sap plm chart : DF) (scorer : String → String → Nat) (th : Nat)
    (out : RunOut) (h : run_matching_full sap plm chart scorer th = .ok out) :
    out.report.rows.map Prod.snd =
      (out.sapProc.rows.map Prod.snd).map
          (fun r => (sapStep out.sapProc.cols out.plmEx scorer th r).1) ++
        unmatchedPlmRows out.plmEx out.claimed := by
  obtain ⟨sapK, plmEx, rfl⟩ := run_matching_full_ok sap plm chart scorer th out h
  show (List.enum (allRowsOf sapK plmEx scorer th)).map Prod.snd = _
  rw [enum_map_snd_eq]
  unfold allRowsOf
  rw [processSap_eq]
  simp [mkRunOut, processSap_eq]

/-- C1 witness: the amended statement instantiated on the double-claim
input. -/
theorem C1_witness :
    (runOutD c1sap c1plm chartS eqScorer 70).report.rows.map Prod.snd =
      ((runOutD c1sap c1plm chartS eqScorer 70).sapProc.rows.map Prod.snd).map
          (fun r => (sapStep (runOutD c1sap c1plm chartS eqScorer 70).sapProc.cols
            (runOutD c1sap c1plm chartS eqScorer 70).plmEx eqScorer 70 r).1) ++
        unmatchedPlmRows (runOutD c1sap c1plm chartS eqScorer 70).plmEx
          (runOutD c1sap c1plm chartS eqScorer 70).claimed :=
  C1_amended c1sap c1plm chartS eqScorer 70 _ (by decide)

/-- C2 counterexample: one PLM row expands to sizes S and M, and the two
fragments share pandas index label 0.  The SAP row claims the S fragment;
the M fragment then has a claimed label too, so it appears neither in a
match nor under `Unmatched PLM`: 1 matched + 0 unmatched ≠ 2 expanded
rows, refuting B-side conservation.  (A-side conservation does hold on
this input: 1 matched + 0 unmatched SAP = 1 SAP row.) -/
theorem C2_counterexample :
    countStatus (runOutD c2sap c2plm chartSM eqScorer 70).report "Unmatched PLM" +
        countStatus (runOutD c2sap c2plm chartSM eqScorer 70).report "Matched" ≠
      (runOutD c2sap c2plm chartSM eqScorer 70).plmEx.rows.length ∧
    countStatus (runOutD c2sap c2plm chartSM eqScorer 70).report "Matched" = 1 ∧
    countStatus (runOutD c2sap c2plm chartSM eqScorer 70).report "Unmatched PLM" = 0 ∧
    (runOutD c2sap c2plm chartSM eqScorer 70).plmEx.rows.length = 2 ∧
    run_matching_full c2sap c2plm chartSM eqScorer 70 =
      .ok (runOutD c2sap c2plm chartSM eqScorer 70) := by
  refine ⟨by decide, by decide, by decide, by decide, by decide⟩

/-- C2 (amended): A-side conservation holds — every SAP row yields exactly
one result, so |Matched| + |Unmatched SAP| = |A rows|.  On the B side only
the weaker accounting holds: the `Unmatched PLM` rows are exactly the
expanded rows whose index label was never claimed; expanded rows sharing
a claimed label are dropped, and a B row can sit in several matches. -/
theorem C2_amended (sap plm chart : DF) (scorer : String → String → Nat) (th : Nat)
    (out : RunOut) (h : run_matching_full sap plm chart scorer th = .ok out) :
    countStatus out.report "Matched" + countStatus out.report "Unmatched SAP" =
      out.sapProc.rows.length ∧
    countStatus out.report "Unmatched PLM" =
      (out.plmEx.rows.filter (fun ir => !(out.claimed.contains ir.1))).length := by
  obtain ⟨sapK, plmEx, rfl⟩ := run_matching_full_ok sap plm chart scorer th out h
  rw [countStatus_mkRunOut, countStatus_mkRunOut, countStatus_mkRunOut]
  have hupM : (unmatchedPlmRows plmEx (mkRunOut sapK plmEx scorer th).claimed).filter
      (fun r => pyEq (rowGetD r "Status") (.vstr "Matched")) = [] :=
    filter_eq_nil_of_false _ _ (fun x hx => by
      rw [unmatchedPlmRows_status _ _ x hx]; rfl)
  have hupU : (unmatchedPlmRows plmEx (mkRunOut sapK plmEx scorer th).claimed).filter
      (fun r => pyEq (rowGetD r "Status") (.vstr "Unmatched SAP")) = [] :=
    filter_eq_nil_of_false _ _ (fun x hx => by
      rw [unmatchedPlmRows_status _ _ x hx]; rfl)
  have hmapUP : ((sapK.rows.map Prod.snd).map
        (fun r => (sapStep sapK.cols plmEx scorer th r).1)).filter
      (fun r => pyEq (rowGetD r "Status") (.vstr "Unmatched PLM")) = [] :=
    filter_eq_nil_of_false _ _ (fun x hx => by
      obtain ⟨r, _, rfl⟩ := List.mem_map.mp hx
      rcases sapStep_status sapK.cols plmEx scorer th r with hs | hs <;>
        simp only [hs] <;> rfl)
  have hupSelf : (unmatchedPlmRows plmEx (mkRunOut sapK plmEx scorer th).claimed).filter
      (fun r => pyEq (rowGetD r "Status") (.vstr "Unmatched PLM")) =
      unmatchedPlmRows plmEx (mkRunOut sapK plmEx scorer th).claimed :=
    filter_eq_self_of_true _ _ (fun x hx => by
      rw [unmatchedPlmRows_status _ _ x hx]; rfl)
  constructor
  · rw [hupM, hupU]
    simp only [List.length_nil, Nat.add_zero]
    have hpair := filter_length_pair
      (fun r => pyEq (rowGetD r "Status") (.vstr "Matched"))
      (fun r => pyEq (rowGetD r "Status") (.vstr "Unmatched SAP"))
      ((sapK.rows.map Prod.snd).map (fun r => (sapStep sapK.cols plmEx scorer th r).1))
      (by
        intro x hx
        obtain ⟨r, _, rfl⟩ := List.mem_map.mp hx
        rcases sapStep_status sapK.cols plmEx scorer th r with hs | hs
        · exact Or.inl ⟨by simp only [hs]; rfl, by simp only [hs]; rfl⟩
        · exact Or.inr ⟨by simp only [hs]; rfl, by simp only [hs]; rfl⟩)
    rw [hpair]
    simp [mkRunOut]
  · rw [hmapUP, hupSelf]
    simp [unmatchedPlmRows, mkRunOut]

/-- C2 witness: the amended conservation statement instantiated on the
double-claim input (2 matched + 0 unmatched SAP = 2 SAP rows; 0 unmatched
PLM rows = 0 expanded rows with an unclaimed label). -/
theorem C2_witness :
    countStatus (runOutD c1sap c1plm chartS eqScorer 70).report "Matched" +
        countStatus (runOutD c1sap c1plm chartS eqScorer 70).report "Unmatched SAP" =
      (runOutD c1sap c1plm chartS eqScorer 70).sapProc.rows.length ∧
    countStatus (runOutD c1sap c1plm chartS eqScorer 70).report "Unmatched PLM" =
      ((runOutD c1sap c1plm chartS eqScorer 70).plmEx.rows.filter
        (fun ir => !((runOutD c1sap c1plm chartS eqScorer 70).claimed.contains ir.1))).length :=
  C2_amended c1sap c1plm chartS eqScorer 70 _ (by decide)

/-- C3 counterexample: the SAP frame lacks the required quantity column
`Comp.Qty.` (canonical ConsumptionQty), yet the run does not fail with any
schema error — it returns a report in which matching has been performed
(one `Matched` row).  No validation precedes matching; the claim that a
missing required field aborts the run with a SchemaError before matching
is false. -/
theorem C3_counterexample :
    run_matching_logic c3sap c1plm chartS eqScorer 70 =
      .ok (runOutD c3sap c1plm chartS eqScorer 70).report ∧
    countStatus (runOutD c3sap c1plm chartS eqScorer 70).report "Matched" = 1 := by
  refine ⟨by decide, by decide⟩

/-- C3 (amended): there is no schema validation or SchemaError.  A field
needed to build the PLM match key (here `Color Name`) raises a plain
KeyError when the key column is assembled — before the matching loop, and
caught only by the page-level handler; whereas a missing quantity column
is not detected at all during matching (see the counterexample, which
runs to completion without it). -/
theorem C3_amended (sap plm chart : DF) (scorer : String → String → Nat) (th : Nat)
    (h1 : "Size_Split_ID" ∈ (chartProcDF chart).cols)
    (h2 : "Size" ∈ (chartProcDF chart).cols)
    (h3 : "Size_Split_ID" ∈ (plmProcDF plm).cols)
    (h4 : "Color Name" ∉ (plmProcDF plm).cols) :
    run_matching_logic sap plm chart scorer th = .error "KeyError: PLM Match_Key columns" := by
  unfold run_matching_logic run_matching_full
  have hm : mergeSize (plmProcDF plm) (chartProcDF chart) =
      .ok ⟨(plmProcDF plm).cols ++ ["Size"],
        (mergeRows (chartProcDF chart) ((plmProcDF plm).rows.map Prod.snd)).enum⟩ := by
    unfold mergeSize
    rw [if_pos ⟨h1, h2⟩, if_pos h3]
  simp only [hm]
  have hp : addPlmKey (explodeSizes ⟨(plmProcDF plm).cols ++ ["Size"],
      (mergeRows (chartProcDF chart) ((plmProcDF plm).rows.map Prod.snd)).enum⟩) =
      .error "KeyError: PLM Match_Key columns" := by
    unfold addPlmKey explodeSizes
    rw [if_neg]
    intro hcond
    rcases List.mem_append.mp hcond.2.1 with hmem | hmem
    · exact h4 hmem
    · exact absurd (List.mem_singleton.mp hmem) (by decide)
  simp only [hp]
  rfl

/-- C3 witness: the amended statement instantiated on a PLM frame missing
`Color Name`. -/
theorem C3_witness :
    run_matching_logic c4sap c3plmNoColor chartS eqScorer 70 =
      .error "KeyError: PLM Match_Key columns" :=
  C3_amended c4sap c3plmNoColor chartS eqScorer 70 (by decide) (by decide) (by decide)
    (by decide)

/-- C4 counterexample: on A=[Material M1, Qty 5] and B=[Material M1,
Qty 5] the report contains no result whose status is `ExactMatched` — no
exact-match phase or status exists; the single result is a generic
`Matched` produced by the fuzzy path. -/
theorem C4_counterexample :
    countStatus (runOutD c4sap c4plm chartS eqScorer 70).report "ExactMatched" = 0 ∧
    countStatus (runOutD c4sap c4plm chartS eqScorer 70).report "Matched" = 1 ∧
    run_matching_full c4sap c4plm chartS eqScorer 70 =
      .ok (runOutD c4sap c4plm chartS eqScorer 70) := by
  refine ⟨by decide, by decide, by decide⟩

/-- C4 (amended): there is no separate exact-match phase; MaterialID
equality is enforced for all matches only through the (Style, Material_ID)
bucketing, and the identical pair is matched by the fuzzy path: the report
holds exactly one row, with status `Matched`, similarity 100 and both
quantities 5.  The claimed diff=0/flag=EQUAL output does not occur: the
UI diff step fails on the miskeyed PLM quantity column and no flag field
exists. -/
theorem C4_amended :
    (runOutD c4sap c4plm chartS eqScorer 70).report.rows.map
        (fun ir => (rowGetD ir.2 "Status", rowGetD ir.2 "Similarity_Score",
                    rowGetD ir.2 "SAP_Consumption", rowGetD ir.2 "PLM_PLM_Consumption")) =
      [(.vstr "Matched", .vnum 100, .vnum 5, .vnum 5)] ∧
    uiMatched (runOutD c4sap c4plm chartS eqScorer 70).report =
      .error "KeyError: PLM_Consumption" ∧
    ((runOutD c4sap c4plm chartS eqScorer 70).report.cols.contains "Consumption_Diff") = false := by
  refine ⟨by decide, by decide, by decide⟩

/-- C5: for an A row whose size-filtered candidate bucket is non-empty,
the emitted status is `Matched` (the spec's FuzzyMatched) exactly when the
best similarity score over the bucket reaches the threshold — the cutoff
comparison is inclusive — and `Unmatched SAP` (UnmatchedA) otherwise. -/
theorem C5_threshold_inclusive (sapCols : List String) (plmEx : DF)
    (scorer : String → String → Nat) (th : Nat) (sapRow : Row)
    (hcols : "Style" ∈ sapCols ∧ "Material_ID" ∈ sapCols ∧ "Size" ∈ sapCols)
    (hne : sapFiltered plmEx sapRow ≠ []) :
    rowGetD (sapStep sapCols plmEx scorer th sapRow).1 "Status" =
      .vstr (if th ≤ bestScore scorer (pyStr (rowGetD sapRow "Match_Key"))
                    (candidatesOf (sapFiltered plmEx sapRow))
             then "Matched" else "Unmatched SAP") := by
  have hempty : (sapFiltered plmEx sapRow).isEmpty = false := by
    cases hf : sapFiltered plmEx sapRow with
    | nil => exact absurd hf hne
    | cons a l => rfl
  unfold sapStep matchSapRow
  rw [if_pos hcols, if_neg (by simp [hempty])]
  cases hx : extractOne scorer (pyStr (rowGetD sapRow "Match_Key")) th
      (candidatesOf (sapFiltered plmEx sapRow)) with
  | some isc =>
    obtain ⟨i, sc⟩ := isc
    obtain ⟨hth, _, c, hf, _, hc2⟩ := extractOne_spec scorer
      (pyStr (rowGetD sapRow "Match_Key")) th (candidatesOf (sapFiltered plmEx sapRow)) i sc hx
    have hb : th ≤ bestScore scorer (pyStr (rowGetD sapRow "Match_Key"))
        (candidatesOf (sapFiltered plmEx sapRow)) :=
      le_trans hth (hc2 ▸ le_bestScore_of_mem _ _ _ c (List.mem_of_find?_eq_some hf))
    rw [if_pos hb]
    simp only [hx]
    simp [combinedRow, rowGetD_set_self]
  | none =>
    have hall := (extractOne_eq_none_iff scorer (pyStr (rowGetD sapRow "Match_Key")) th
      (candidatesOf (sapFiltered plmEx sapRow))).mp hx
    have hcne : candidatesOf (sapFiltered plmEx sapRow) ≠ [] := by
      cases hf : sapFiltered plmEx sapRow with
      | nil => exact absurd hf hne
      | cons a l => simp [candidatesOf, hf]
    obtain ⟨c0, hc0⟩ := List.exists_mem_of_ne_nil _ hcne
    have hb : bestScore scorer (pyStr (rowGetD sapRow "Match_Key"))
        (candidatesOf (sapFiltered plmEx sapRow)) < th :=
      bestScore_lt _ _ _ _ (lt_of_le_of_lt (Nat.zero_le _) (hall c0 hc0)) hall
    rw [if_neg (not_le.mpr hb)]
    simp only [hx]
    simp [rowGetD_set_self]

/-- C5 witness: a single candidate scoring 85 is `Matched` at threshold 70
and `Unmatched SAP` at threshold 95. -/
theorem C5_witness :
    (("Style" ∈ sapCols5 ∧ "Material_ID" ∈ sapCols5 ∧ "Size" ∈ sapCols5) ∧
      sapFiltered plmEx5 sapRow5 ≠ []) ∧
    rowGetD (sapStep sapCols5 plmEx5 scorer85 70 sapRow5).1 "Status" = .vstr "Matched" ∧
    rowGetD (sapStep sapCols5 plmEx5 scorer85 95 sapRow5).1 "Status" = .vstr "Unmatched SAP" := by
  refine ⟨⟨by decide, by decide⟩, ?_, ?_⟩
  · rw [C5_threshold_inclusive sapCols5 plmEx5 scorer85 70 sapRow5 (by decide) (by decide)]
    decide
  · rw [C5_threshold_inclusive sapCols5 plmEx5 scorer85 95 sapRow5 (by decide) (by decide)]
    decide

/-- C6: whenever the matcher selects a candidate, the winning score
dominates every qualifying candidate of the bucket, and the selected
index label belongs to the *first* candidate in bucket iteration order
attaining the winning score: ties are broken by position — never by score
alone — and the selection is a pure function of the inputs, hence
reproducible across runs. -/
theorem C6_tie_break (sapCols : List String) (plmEx : DF)
    (scorer : String → String → Nat) (th : Nat) (sapRow : Row) (i : Nat) (pr : Row) (sc : Nat)
    (h : matchSapRow sapCols plmEx scorer th sapRow = some (i, pr, sc)) :
    (∀ c ∈ candidatesOf (sapFiltered plmEx sapRow),
        th ≤ scorer (pyStr (rowGetD sapRow "Match_Key")) c.2 →
        scorer (pyStr (rowGetD sapRow "Match_Key")) c.2 ≤ sc) ∧
    ∃ c, (candidatesOf (sapFiltered plmEx sapRow)).find?
          (fun c => decide (sc ≤ scorer (pyStr (rowGetD sapRow "Match_Key")) c.2)) = some c ∧
        c.1 = i ∧ scorer (pyStr (rowGetD sapRow "Match_Key")) c.2 = sc := by
  unfold matchSapRow at h
  split at h
  · split at h
    · exact absurd h (by simp)
    · cases hx : extractOne scorer (pyStr (rowGetD sapRow "Match_Key")) th
          (candidatesOf (sapFiltered plmEx sapRow)) with
      | some isc =>
        obtain ⟨i', sc'⟩ := isc
        simp only [hx] at h
        obtain ⟨hi, -, hsc⟩ : i' = i ∧ locRow (sapFiltered plmEx sapRow) i' = pr ∧ sc' = sc := by
          simpa using h
        have hs := extractOne_spec scorer (pyStr (rowGetD sapRow "Match_Key")) th
          (candidatesOf (sapFiltered plmEx sapRow)) i' sc' hx
        exact ⟨hsc ▸ hs.2.1, hi ▸ hsc ▸ hs.2.2⟩
      | none =>
        simp only [hx] at h
        exact absurd h (by simp)
  · exact absurd h (by simp)

/-- C6 witness: two candidates tied at score 88 — the matcher returns the
first one (index label 0), and the first-reaching-88 candidate in bucket
order indeed has label 0. -/
theorem C6_witness :
    matchSapRow sapCols5 plmEx6 scorer88 70 sapRow5 =
      some (0, locRow (sapFiltered plmEx6 sapRow5) 0, 88) ∧
    ((candidatesOf (sapFiltered plmEx6 sapRow5)).find?
        (fun c => decide (88 ≤ scorer88 (pyStr (rowGetD sapRow5 "Match_Key")) c.2))).map
      Prod.fst = some 0 := by
  refine ⟨by decide, ?_⟩
  obtain ⟨c, hf, hc1, -⟩ := (C6_tie_break sapCols5 plmEx6 scorer88 70 sapRow5 0
    (locRow (sapFiltered plmEx6 sapRow5) 0) 88 (by decide)).2
  rw [hf]
  simp [hc1]

/-- C7 counterexample: with A qty 10 and B qty 7 matched, the claim
promises diff = 3 and flag A_HIGHER; instead the UI diff step fails with
a KeyError — the matched record stores the PLM quantity only under the
double-prefixed `PLM_PLM_Consumption`, the looked-up `PLM_Consumption`
column does not exist — so rendering aborts and no diff value or flag is
ever produced. -/
theorem C7_counterexample :
    countStatus (runOut7 10 7).report "Matched" = 1 ∧
    uiMatched (runOut7 10 7).report = .error "KeyError: PLM_Consumption" ∧
    ((runOut7 10 7).report.cols.contains "Consumption_Diff") = false := by
  refine ⟨by decide, by decide, by decide⟩

/-- C7 (amended): the matched record carries the quantities under
`SAP_Consumption` and `PLM_PLM_Consumption` and has no `PLM_Consumption`
field; the subtraction the UI intends — applied to the values actually
stored — follows the claimed sign convention (diff = A − B for all
quantities, positive when A declares more), but the UI's lookup of
`PLM_Consumption` fails, rendering aborts, and no
A_HIGHER/B_HIGHER/EQUAL flag exists anywhere in the code. -/
theorem C7_amended :
    (statusFilter (runOut7 10 7).report "Matched").rows.map
        (fun ir => (rowGetD ir.2 "SAP_Consumption", rowGetD ir.2 "PLM_PLM_Consumption",
                    rowGet? ir.2 "PLM_Consumption")) = [(.vnum 10, .vnum 7, none)] ∧
    (∀ a b : Int, valueSub (.vnum a) (.vnum b) = .ok (.vnum (a - b))) ∧
    uiMatched (runOut7 10 7).report = .error "KeyError: PLM_Consumption" := by
  refine ⟨by decide, fun a b => rfl, by decide⟩

/-- C8 counterexample: a matched pair whose quantities are the strings
"N/A" and "n.a.".  The claim promises a locally degraded record retained
with diff = null and flag INVALID; instead the UI fails with the
`PLM_Consumption` KeyError before any quantity is read, the page-level
handler aborts the whole rendering, and no INVALID-flagged record
exists. -/
theorem C8_counterexample :
    countStatus (runOutD c8sap c8plm chartS eqScorer 70).report "Matched" = 1 ∧
    uiMatched (runOutD c8sap c8plm chartS eqScorer 70).report =
      .error "KeyError: PLM_Consumption" := by
  refine ⟨by decide, by decide⟩

/-- C8 (amended): the failure is not local.  Whenever the report holds at
least one matched record (and, as for every input without a literal raw
`PLM_Consumption` column, the report lacks that column while carrying
`SAP_Consumption`), the UI diff step raises the KeyError and rendering
aborts; there is no INVALID/null-diff path.  Even with the right column
name a string quantity would abort too: subtraction errors on any string
operand. -/
theorem C8_amended (report : DF)
    (hne : (statusFilter report "Matched").rows ≠ [])
    (hsap : "SAP_Consumption" ∈ report.cols)
    (hplm : "PLM_Consumption" ∉ report.cols) :
    uiMatched report = .error "KeyError: PLM_Consumption" ∧
    ∀ (s : String) (v : Value), valueSub (.vstr s) v = .error "TypeError: unsupported operand" := by
  constructor
  · have hempty : (statusFilter report "Matched").rows.isEmpty = false := by
      cases hf : (statusFilter report "Matched").rows with
      | nil => exact absurd hf hne
      | cons a l => rfl
    unfold uiMatched addConsumptionDiff
    rw [if_neg (by simp [hempty])]
    simp only [statusFilter]
    rw [if_pos hsap, if_neg hplm]
  · intro s v
    cases v <;> rfl

/-- C8 witness: the amended statement instantiated on the non-numeric
quantity input. -/
theorem C8_witness :
    uiMatched (runOutD c8sap c8plm chartS eqScorer 70).report =
      .error "KeyError: PLM_Consumption" ∧
    ∀ (s : String) (v : Value), valueSub (.vstr s) v = .error "TypeError: unsupported operand" :=
  C8_amended (runOutD c8sap c8plm chartS eqScorer 70).report (by decide) (by decide) (by decide)

/-- C9 counterexample: a B row whose raw size field (the `Size Split` id)
is "S,M" but has no size-chart entry.  The claimed fallback — split the
raw size field on the delimiter — would expand it into two records S and
M; the code instead emits exactly one expanded record with an empty Size
(the left-merge leaves NaN, which `fillna('')` turns into the empty
string). -/
theorem C9_counterexample :
    (runOutD c2sap c9plm chartEmpty eqScorer 70).plmEx.rows.map
        (fun ir => rowGetD ir.2 "Size") = [.vstr ""] ∧
    (runOutD c2sap c9plm chartEmpty eqScorer 70).plmEx.rows.length = 1 ∧
    run_matching_full c2sap c9plm chartEmpty eqScorer 70 =
      .ok (runOutD c2sap c9plm chartEmpty eqScorer 70) := by
  refine ⟨by decide, by decide, by decide⟩

/-- C9 (amended): per merged B row the expander emits one record per
comma-separated label of the *chart-resolved* size string, each with the
trimmed label; a row with no chart entry gets NaN from the merge, which
becomes the empty string and yields exactly one record with an explicit
empty Size — there is no fallback splitting of the raw size field. -/
theorem C9_amended :
    (∀ (cols : List String) (i : Nat) (r : Row), rowGetD r "Size" = .vnan →
      explodeSizes ⟨cols, [(i, r)]⟩ = ⟨cols, [(i, rowSet r "Size" (.vstr ""))]⟩) ∧
    (∀ (cols : List String) (i : Nat) (r : Row) (s : String), rowGetD r "Size" = .vstr s →
      (explodeSizes ⟨cols, [(i, r)]⟩).rows =
        (splitComma s).map (fun l => (i, rowSet r "Size" (.vstr (trimString l))))) ∧
    (∀ (chart : DF) (r : Row),
      (chartPairs chart).filter (fun p => pyEq p.1 (rowGetD r "Size_Split_ID")) = [] →
      mergeRows chart [r] = [rowSet r "Size" .vnan]) := by
  refine ⟨?_, ?_, ?_⟩
  · intro cols i r h
    unfold explodeSizes
    simp only [List.flatMap_cons, List.flatMap_nil, List.append_nil]
    rw [h]
    rfl
  · intro cols i r s h
    unfold explodeSizes
    simp only [List.flatMap_cons, List.flatMap_nil, List.append_nil]
    rw [h]
    rfl
  · intro chart r hf
    unfold mergeRows
    simp only [List.flatMap_cons, List.flatMap_nil, List.append_nil]
    simp [hf]

/-- C9 witness: the amended statement instantiated on a NaN size, on the
literal size list "S, M" (two trimmed records), and on a chart with no
matching entry. -/
theorem C9_witness :
    explodeSizes ⟨["Size"], [(0, [("Size", Value.vnan)])]⟩ =
      ⟨["Size"], [(0, rowSet [("Size", Value.vnan)] "Size" (.vstr ""))]⟩ ∧
    (explodeSizes ⟨["Size"], [(0, [("Size", Value.vstr "S, M")])]⟩).rows =
      (splitComma "S, M").map
        (fun l => (0, rowSet [("Size", Value.vstr "S, M")] "Size" (.vstr (trimString l)))) ∧
    mergeRows chartEmpty [[("Size_Split_ID", Value.vstr "S,M")]] =
      [rowSet [("Size_Split_ID", Value.vstr "S,M")] "Size" .vnan] :=
  ⟨C9_amended.1 ["Size"] 0 _ (by decide),
   C9_amended.2.1 ["Size"] 0 _ "S, M" (by decide),
   C9_amended.2.2 chartEmpty _ (by decide)⟩

/-- C10 counterexample: two matched pairs with |A − B| gaps 1 and then 5
appear in the report in A-row order — the gap-1 entry first — so the
matched entries are not sorted by |diff| descending; the engine performs
no sorting at all (and never adds a diff column to the report). -/
theorem C10_counterexample :
    specMatchedAbsDiffs (runOutD c10sap c10plm chartS eqScorer 70).report =
      [some 1, some 5] ∧
    specSortedDesc (specMatchedAbsDiffs (runOutD c10sap c10plm chartS eqScorer 70).report) =
      false ∧
    run_matching_full c10sap c10plm chartS eqScorer 70 =
      .ok (runOutD c10sap c10plm chartS eqScorer 70) := by
  refine ⟨by decide, by decide, by decide⟩

/-- C10 (amended): the matched entries of the emitted report appear
exactly in A-row processing order — the matched section equals the
status-filtered pointwise image of the SAP rows — with the unmatched-PLM
rows following; no |diff|-descending (or any other) sort is applied. -/
theorem C10_amended (sap plm chart : DF) (scorer : String → String → Nat) (th : Nat)
    (out : RunOut) (h : run_matching_full sap plm chart scorer th = .ok out) :
    (statusFilter out.report "Matched").rows.map Prod.snd =
      ((out.sapProc.rows.map Prod.snd).map
          (fun r => (sapStep out.sapProc.cols out.plmEx scorer th r).1)).filter
        (fun r => pyEq (rowGetD r "Status") (.vstr "Matched")) := by
  obtain ⟨sapK, plmEx, rfl⟩ := run_matching_full_ok sap plm chart scorer th out h
  have hnil : (unmatchedPlmRows plmEx
      (processSap sapK.cols plmEx scorer th (sapK.rows.map Prod.snd)).2).filter
      (fun r => pyEq (rowGetD r "Status") (.vstr "Matched")) = [] :=
    filter_eq_nil_of_false _ _ (fun x hx => by
      rw [unmatchedPlmRows_status _ _ x hx]; rfl)
  show ((List.enum (allRowsOf sapK plmEx scorer th)).filter
      (fun ir => pyEq (rowGetD ir.2 "Status") (.vstr "Matched"))).map Prod.snd = _
  rw [status_filter_enum_map_snd]
  unfold allRowsOf
  rw [List.filter_append, hnil, List.append_nil, processSap_eq]
  simp [mkRunOut, processSap_eq]

/-- C10 witness: the amended ordering statement instantiated on the
two-pair input whose gaps are 1 and 5. -/
theorem C10_witness :
    (statusFilter (runOutD c10sap c10plm chartS eqScorer 70).report "Matched").rows.map
        Prod.snd =
      (((runOutD c10sap c10plm chartS eqScorer 70).sapProc.rows.map Prod.snd).map
          (fun r => (sapStep (runOutD c10sap c10plm chartS eqScorer 70).sapProc.cols
            (runOutD c10sap c10plm chartS eqScorer 70).plmEx eqScorer 70 r).1)).filter
        (fun r => pyEq (rowGetD r "Status") (.vstr "Matched")) :=
  C10_amended c10sap c10plm chartS eqScorer 70 _ (by decide)

end BOMComparison
